import Mathlib

/-!
Verification of the SwipingForJobs client-side session subsystem.

This file gives a shallow embedding of the session-custody code in
frontend/src/sessionManager.js (class SessionManager) and of the GitHub
OAuth callback component (handleGitHubCallback / linkGitHubAccount /
handleRetry), and proves the specified properties about them.

Modelling conventions:
- localStorage is modelled as a record Store with one Option-valued field
  per storage key (tokenKey, userKey, expiryKey); none models an absent
  key (getItem returning null).
- The user slot holds Option UserData rather than a JSON string: the code
  only ever writes JSON.stringify of an object and reads it back with
  JSON.parse, which round-trips, so the serialisation layer is dropped.
  JavaScript truthiness of the id and email fields is modelled by
  String.isEmpty (an empty string is falsy).
- new Date(s).getTime() and Date.now() are modelled by an environment
  JSEnv carrying an abstract parse function (none models an Invalid Date,
  i.e. a NaN time value) and the current time in milliseconds. The field
  parse_empty records the real JavaScript fact that new Date applied to
  the empty string is Invalid Date.
- A fetch call is modelled by a FetchResult value: ok carries the parsed
  JSON body of a 2xx response, httpError carries the status code of a
  non-2xx response, and networkError models fetch throwing (no response
  at all). Functions that perform network calls additionally return the
  list of calls they made, so that which-endpoint-was-called properties
  can be stated.
- JavaScript NaN arithmetic is modelled by Option Int: none is NaN, and
  every comparison with none is false, exactly as NaN comparisons are.
-/

/-- Snapshot of the authenticated identity as stored in the user slot.
JavaScript truthiness of the id and email fields is modelled by
emptiness of the strings. -/
structure UserData where
  id : String
  email : String
deriving DecidableEq, Repr

/-- The three localStorage slots owned by SessionManager: tokenKey,
userKey and expiryKey. none models an absent key. -/
structure Store where
  token : Option String
  userData : Option UserData
  expiry : Option String
deriving DecidableEq, Repr

/-- Environment for the JavaScript Date API: parse models
new Date(s).getTime() with none for an Invalid Date (NaN), and now models
Date.now(). parse_empty records that new Date of the empty string is
Invalid Date in JavaScript. -/
structure JSEnv where
  parse : String → Option Int
  now : Int
  parse_empty : parse "" = none

/-- Truthiness of a nullable string: null and the empty string are falsy,
every other string is truthy. -/
def jsTruthy : Option String → Bool
  | none => false
  | some s => !s.isEmpty

/-- Outcome of one fetch call: a 2xx response with parsed body, a non-2xx
response with its status code, or a thrown network-level failure. -/
inductive FetchResult (α : Type) where
  | ok (data : α)
  | httpError (code : Nat)
  | networkError
deriving DecidableEq, Repr

/-- Body of a successful POST auth-refresh response: the session object
with its token and expires_at fields. -/
structure RefreshSession where
  token : String
  expires_at : String
deriving DecidableEq, Repr

/-- Network calls checkAndRefreshSession can make: the GET auth-me
(who am I) call and the POST auth-refresh call. -/
inductive ApiCall where
  | me
  | refresh
deriving DecidableEq, Repr

/-- SessionManager.setSession (sessionManager.js lines 10-27): rejects any
falsy argument with no mutation, otherwise writes all three slots. -/
def setSession (sessionToken : String) (userData : Option UserData)
    (expiresAt : String) (s : Store) : Bool × Store :=
  if sessionToken.isEmpty || userData.isNone || expiresAt.isEmpty then
    (false, s)
  else
    (true, ⟨some sessionToken, userData, some expiresAt⟩)

/-- SessionManager.getToken (line 30-32). -/
def getToken (s : Store) : Option String :=
  s.token

/-- SessionManager.getUser (lines 35-53): reads the user slot and
re-validates the required-field invariant (non-empty id and email),
returning null when it fails. -/
def getUser (s : Store) : Option UserData :=
  match s.userData with
  | none => none
  | some parsed =>
      if parsed.id.isEmpty || parsed.email.isEmpty then none else some parsed

/-- SessionManager.getExpiry (lines 56-58). -/
def getExpiry (s : Store) : Option String :=
  s.expiry

/-- SessionManager.isSessionValid (lines 61-85): false when token, expiry
or user is falsy; false when the expiry does not parse to a valid date;
otherwise true exactly when now is strictly before the expiry date. -/
def isSessionValid (env : JSEnv) (s : Store) : Bool :=
  match getToken s, getExpiry s, getUser s with
  | some token, some expiry, some _ =>
      if token.isEmpty || expiry.isEmpty then false
      else
        match env.parse expiry with
        | none => false
        | some t => decide (env.now < t)
  | _, _, _ => false

/-- SessionManager.clearSession (lines 88-92): removes all three slots. -/
def clearSession (_s : Store) : Store :=
  ⟨none, none, none⟩

/-- SessionManager.updateUser (lines 108-110): overwrites the user slot
with no validation, leaving token and expiry untouched. -/
def updateUser (userData : UserData) (s : Store) : Store :=
  { s with userData := some userData }

/-- SessionManager.isLoggedIn (lines 113-115). -/
def isLoggedIn (env : JSEnv) (s : Store) : Bool :=
  isSessionValid env s && (getUser s).isSome

/-- SessionManager.getTimeUntilExpiry (lines 198-207): 0 for a falsy
expiry; otherwise Math.max(0, Math.floor((expiryTime - now) / 60000)).
When the stored expiry does not parse, expiryTime is NaN and the whole
expression evaluates to NaN (Math.max(0, NaN) is NaN), modelled by none.
Integer division by the positive constant 60000 is floor division,
matching Math.floor. -/
def getTimeUntilExpiry (env : JSEnv) (s : Store) : Option Int :=
  match getExpiry s with
  | none => some 0
  | some expiry =>
      if expiry.isEmpty then some 0
      else
        match env.parse expiry with
        | none => none
        | some t => some (max 0 ((t - env.now) / 60000))

/-- SessionManager.isSessionExpiringSoon (lines 210-212): the comparison
NaN less-than 30 is false in JavaScript. -/
def isSessionExpiringSoon (env : JSEnv) (s : Store) : Bool :=
  match getTimeUntilExpiry env s with
  | none => false
  | some k => decide (k < 30)

/-- SessionManager.checkAndRefreshSession (lines 118-195), the session
reconciler. Inputs meResp and refreshResp describe the outcomes the two
possible fetch calls would have; the result is the returned boolean, the
final store, and the list of network calls actually made. The refresh is
attempted when the raw millisecond gap to expiry is below two hours
(2 * 60 * 60 * 1000 = 7200000, line 156); a NaN gap compares false. A
failed or unreachable refresh is swallowed and the store kept. -/
def checkAndRefreshSession (env : JSEnv) (meResp : FetchResult UserData)
    (refreshResp : FetchResult RefreshSession) (s : Store) :
    Bool × Store × List ApiCall :=
  if !(jsTruthy (getToken s)) || (getUser s).isNone then
    (false, clearSession s, [])
  else if !(isSessionValid env s) then
    (false, clearSession s, [])
  else
    match meResp with
    | .ok serverUser =>
        let s1 := updateUser serverUser s
        let doRefresh :=
          match getExpiry s1 with
          | none => false
          | some expiry =>
              if expiry.isEmpty then false
              else
                match env.parse expiry with
                | none => false
                | some t => decide (t - env.now < 7200000)
        if doRefresh then
          match refreshResp with
          | .ok rd =>
              (true, (setSession rd.token (getUser s1) rd.expires_at s1).2,
                [.me, .refresh])
          | _ => (true, s1, [.me, .refresh])
        else
          (true, s1, [.me])
    | .httpError code =>
        if code = 401 then (false, clearSession s, [.me])
        else (isSessionValid env s, s, [.me])
    | .networkError => (isSessionValid env s, s, [.me])

/-- Concrete Date-parse table used for closed witnesses: exp90 and exp60
parse to 90 and 60 minutes past epoch, past parses to one minute before
epoch, and every other string is an Invalid Date, as new Date yields on
unparseable input such as not-a-date. -/
def demoParse (s : String) : Option Int :=
  if s = "exp90" then some 5400000
  else if s = "exp60" then some 3600000
  else if s = "past" then some (-60000)
  else none

/-- Concrete environment for witnesses: demoParse dates, current time 0. -/
def env0 : JSEnv :=
  ⟨demoParse, 0, by decide⟩

/-- Concrete valid user snapshot for witnesses. -/
def u0 : UserData :=
  ⟨"17", "dev@example.com"⟩

/-- Concrete store holding a valid session that expires 90 minutes from
env0 current time. -/
def store90 : Store :=
  ⟨some "tok1", some u0, some "exp90"⟩

/-- Concrete store holding a valid session that expires 60 minutes from
env0 current time. -/
def store60 : Store :=
  ⟨some "tok1", some u0, some "exp60"⟩

/-- Concrete store whose expiry slot holds an unparseable date string. -/
def sBad : Store :=
  ⟨some "tok1", some u0, some "not-a-date"⟩

/-- The two sessionStorage slots of the OAuth handshake record:
github_oauth_state and github_linking_user_id. -/
structure OAuthStorage where
  github_oauth_state : Option String
  github_linking_user_id : Option String
deriving DecidableEq, Repr

/-- GitHub profile fields the callback flow uses. -/
structure GithubUser where
  id : String
  username : String
deriving DecidableEq, Repr

/-- Body of a successful GET auth-github-callback exchange response. -/
structure CallbackData where
  github_linked : Bool
  github_user : GithubUser
  access_token : String
deriving DecidableEq, Repr

/-- Terminal and intermediate states of the GitHubCallback component. -/
inductive CallbackStatus where
  | processing
  | linking
  | error
  | success
deriving DecidableEq, Repr

/-- Network calls the callback flow can make: the code-for-token exchange
(GET auth-github-callback) and the POST auth-github-link call. -/
inductive OAuthCall where
  | exchange
  | link
deriving DecidableEq, Repr

/-- Function linkGitHubAccount in the GitHubCallback component (the POST
to the link endpoint): success clears both handshake slots and sets
status success; a non-2xx response or a thrown fetch is caught and sets
status error with the storage untouched. -/
def linkGitHubAccount (linkResp : FetchResult Unit)
    (storage : OAuthStorage) : CallbackStatus × OAuthStorage :=
  match linkResp with
  | .ok _ => (.success, ⟨none, none⟩)
  | .httpError _ => (.error, storage)
  | .networkError => (.error, storage)

/-- Function handleGitHubCallback in the GitHubCallback component.
Arguments codeParam, stateParam and errorParam are the query parameters
of the callback URL (none when absent); cbResp and linkResp describe the
outcomes the exchange and link fetch calls would have; storage is the
handshake record held in sessionStorage. The result is the final status,
the final handshake storage, and the network calls actually made. An
already-linked exchange response short-circuits to success and clears the
handshake slots; otherwise the link call runs via linkGitHubAccount. -/
def handleGitHubCallback (codeParam stateParam errorParam : Option String)
    (cbResp : FetchResult CallbackData) (linkResp : FetchResult Unit)
    (storage : OAuthStorage) : CallbackStatus × OAuthStorage × List OAuthCall :=
  if jsTruthy errorParam then (.error, storage, [])
  else if !(jsTruthy codeParam) then (.error, storage, [])
  else
    match storage.github_oauth_state with
    | none => (.error, storage, [])
    | some storedState =>
        if storedState.isEmpty || stateParam != some storedState then
          (.error, storage, [])
        else
          match storage.github_linking_user_id with
          | none => (.error, storage, [])
          | some linkingUserId =>
              if linkingUserId.isEmpty then (.error, storage, [])
              else
                match cbResp with
                | .httpError _ => (.error, storage, [.exchange])
                | .networkError => (.error, storage, [.exchange])
                | .ok data =>
                    if data.github_linked then
                      (.success, ⟨none, none⟩, [.exchange])
                    else
                      ((linkGitHubAccount linkResp storage).1,
                        (linkGitHubAccount linkResp storage).2,
                        [.exchange, .link])

/-- Function handleRetry in the GitHubCallback component: removes both
handshake slots and navigates back to the profile view. -/
def handleRetry (_storage : OAuthStorage) : OAuthStorage :=
  ⟨none, none⟩

/-- Concrete handshake record for witnesses. -/
def storageS : OAuthStorage :=
  ⟨some "state1", some "7"⟩

/-- Concrete already-linked exchange response body for witnesses. -/
def cbLinked : CallbackData :=
  ⟨true, ⟨"9", "octocat"⟩, "ghtok"⟩

/-- Concrete not-yet-linked exchange response body for witnesses. -/
def cbUnlinked : CallbackData :=
  ⟨false, ⟨"9", "octocat"⟩, "ghtok"⟩

/-- Helper: a string whose isEmpty flag is true is the empty string, so
by parse_empty it cannot parse to a time value. -/
lemma parse_some_not_isEmpty (env : JSEnv) {e : String} {t : Int}
    (hP : env.parse e = some t) : e.isEmpty = false := by
  cases hee : e.isEmpty
  · rfl
  · exfalso
    have he : e = "" := (String.isEmpty_iff e).mp hee
    rw [he, env.parse_empty] at hP
    cases hP

/-- Helper: unfolding of a true isSessionValid verdict into its
components: truthy token, surviving user snapshot, and a stored,
parseable, strictly-future expiry. -/
lemma isSessionValid_true_elim (env : JSEnv) (s : Store)
    (h : isSessionValid env s = true) :
    jsTruthy (getToken s) = true ∧ (getUser s).isSome = true ∧
      ∃ e t, getExpiry s = some e ∧ e.isEmpty = false ∧
        env.parse e = some t ∧ env.now < t := by
  unfold isSessionValid at h
  cases hT : getToken s <;> rw [hT] at h
  · cases h
  cases hE : getExpiry s <;> rw [hE] at h
  · cases h
  cases hU : getUser s <;> rw [hU] at h
  · cases h
  rename_i tok e u
  have h' : (if (tok.isEmpty || e.isEmpty) = true then false
      else
        match env.parse e with
        | none => false
        | some t => decide (env.now < t)) = true := h
  by_cases hcond : (tok.isEmpty || e.isEmpty) = true
  · rw [if_pos hcond] at h'
    cases h'
  · rw [if_neg hcond] at h'
    simp only [Bool.or_eq_true, not_or, Bool.not_eq_true] at hcond
    obtain ⟨htok, hee⟩ := hcond
    cases hP : env.parse e <;> rw [hP] at h'
    · simp at h'
    rename_i t
    have hlt : env.now < t := by simpa using h'
    exact ⟨by simp [jsTruthy, htok], by simp, e, t, rfl, hee, hP, hlt⟩

/-- C5: setSession with any empty or undefined argument returns false and
mutates nothing, leaving a previously stored session exactly as it was;
a successful setSession writes all three fields as one unit, so the
resulting store is exactly the full new triple and no partial write is
ever observable. -/
theorem setSession_contract (tok : String) (u : Option UserData)
    (e : String) (s : Store) :
    ((tok.isEmpty || u.isNone || e.isEmpty) = true →
      setSession tok u e s = (false, s)) ∧
    ((tok.isEmpty || u.isNone || e.isEmpty) = false →
      setSession tok u e s = (true, ⟨some tok, u, some e⟩)) := by
  unfold setSession
  constructor <;> intro h <;> simp [h]

/-- Witness for C5: setSession with an empty token fails and leaves the
prior valid session store90 untouched. -/
theorem setSession_contract_witness :
    setSession "" (some u0) "exp90" store90 = (false, store90) :=
  (setSession_contract "" (some u0) "exp90" store90).1 (by decide)

/-- C6: isSessionValid is true exactly when a truthy token, a user
snapshot surviving the required-field invariant, and a stored expiry that
parses to a time strictly after now are all present; it is a total
function, so it never throws. -/
theorem isSessionValid_iff (env : JSEnv) (s : Store) :
    isSessionValid env s = true ↔
      jsTruthy (getToken s) = true ∧ (getUser s).isSome = true ∧
        ∃ e t, getExpiry s = some e ∧ env.parse e = some t ∧
          env.now < t := by
  constructor
  · intro h
    obtain ⟨h1, h2, e, t, hE, -, hP, hlt⟩ := isSessionValid_true_elim env s h
    exact ⟨h1, h2, e, t, hE, hP, hlt⟩
  · rintro ⟨h1, h2, e, t, hE, hP, hlt⟩
    have hne : e.isEmpty = false := parse_some_not_isEmpty env hP
    unfold isSessionValid
    rw [hE]
    cases hT : getToken s
    · rw [hT] at h1; simp [jsTruthy] at h1
    cases hU : getUser s
    · rw [hU] at h2; simp at h2
    rename_i tok u
    have htok : tok.isEmpty = false := by
      rw [hT] at h1; simpa [jsTruthy] using h1
    simp [htok, hne, hP, hlt]

/-- C7 counterexample: with an unparseable expiry string stored, the
raw claim fails: getTimeUntilExpiry yields NaN (modelled none), which is
not a non-negative integer. -/
theorem timeUntilExpiry_nan_cex :
    getTimeUntilExpiry env0 sBad = none ∧
    ¬ ∃ k : Int, getTimeUntilExpiry env0 sBad = some k ∧ 0 ≤ k := by
  constructor
  · decide
  · rintro ⟨k, hk, -⟩
    rw [(by decide : getTimeUntilExpiry env0 sBad = none)] at hk
    cases hk

/-- C7 as amended: getTimeUntilExpiry returns 0 when the stored expiry is
absent or empty; when the stored expiry parses, it returns a non-negative
integer number of minutes, clamped to 0 once the expiry is not in the
future; when a non-empty stored expiry fails to parse, it returns NaN. -/
theorem timeUntilExpiry_spec (env : JSEnv) (s : Store) :
    (jsTruthy (getExpiry s) = false → getTimeUntilExpiry env s = some 0) ∧
    (∀ e t, getExpiry s = some e → env.parse e = some t →
      ∃ k : Int, getTimeUntilExpiry env s = some k ∧ 0 ≤ k ∧
        (t ≤ env.now → k = 0)) ∧
    (∀ e, getExpiry s = some e → e.isEmpty = false →
      env.parse e = none → getTimeUntilExpiry env s = none) := by
  refine ⟨?_, ?_, ?_⟩
  · intro h
    unfold getTimeUntilExpiry
    cases hE : getExpiry s
    · rfl
    · rename_i e
      rw [hE] at h
      have hee : e.isEmpty = true := by simpa [jsTruthy] using h
      simp [hee]
  · intro e t hE hP
    have hne : e.isEmpty = false := parse_some_not_isEmpty env hP
    refine ⟨max 0 ((t - env.now) / 60000), ?_, le_max_left 0 _, ?_⟩
    · unfold getTimeUntilExpiry
      rw [hE]
      simp [hne, hP]
    · intro hle
      have hd : (t - env.now) / 60000 ≤ 0 := by omega
      exact max_eq_left hd
  · intro e hE hne hP
    unfold getTimeUntilExpiry
    rw [hE]
    simp [hne, hP]

/-- Witness for C7 amended: on the cleared store with no expiry slot the
function returns 0. -/
theorem timeUntilExpiry_spec_witness :
    getTimeUntilExpiry env0 (clearSession store90) = some 0 :=
  (timeUntilExpiry_spec env0 (clearSession store90)).1 (by decide)

/-- C8: a well-formed triple (non-empty token, user snapshot with
non-empty id and email, non-empty parseable future expiry) round-trips:
setSession succeeds and the three getters return exactly the values that
were set. -/
theorem setSession_roundTrip (env : JSEnv) (tok : String) (u : UserData)
    (e : String) (s : Store) (t : Int)
    (htok : tok.isEmpty = false) (hid : u.id.isEmpty = false)
    (hemail : u.email.isEmpty = false) (he : e.isEmpty = false)
    (_hparse : env.parse e = some t) (_hfut : env.now < t) :
    (setSession tok (some u) e s).1 = true ∧
    getToken (setSession tok (some u) e s).2 = some tok ∧
    getUser (setSession tok (some u) e s).2 = some u ∧
    getExpiry (setSession tok (some u) e s).2 = some e := by
  unfold setSession getToken getUser getExpiry
  simp [htok, he, hid, hemail]

/-- Witness for C8: a concrete well-formed triple round-trips through the
store sBad. -/
theorem setSession_roundTrip_witness :
    (setSession "tok2" (some u0) "exp60" sBad).1 = true ∧
    getToken (setSession "tok2" (some u0) "exp60" sBad).2 = some "tok2" ∧
    getUser (setSession "tok2" (some u0) "exp60" sBad).2 = some u0 ∧
    getExpiry (setSession "tok2" (some u0) "exp60" sBad).2 = some "exp60" :=
  setSession_roundTrip env0 "tok2" u0 "exp60" sBad 3600000 (by decide)
    (by decide) (by decide) (by decide) (by decide) (by decide)

/-- C9: isLoggedIn computes the same value as isSessionValid on every
store state, because isSessionValid already returns false whenever the
user snapshot is absent or fails the required-field invariant, making the
extra user-presence conjunct redundant. -/
theorem isLoggedIn_eq_isSessionValid (env : JSEnv) (s : Store) :
    isLoggedIn env s = isSessionValid env s := by
  unfold isLoggedIn isSessionValid
  cases hT : getToken s <;> cases hE : getExpiry s <;> cases hU : getUser s <;>
    simp

/-- C10: updateUser performs no validation: it writes any user snapshot,
including one with an empty id or email, while leaving token and expiry
unchanged; afterwards getUser reports the user as absent and
isSessionValid is false, although neither clearSession nor any other
clearing ran. -/
theorem updateUser_no_validation (env : JSEnv) (s : Store) (u : UserData)
    (h : u.id.isEmpty = true ∨ u.email.isEmpty = true) :
    (updateUser u s).userData = some u ∧
    (updateUser u s).token = s.token ∧
    (updateUser u s).expiry = s.expiry ∧
    getUser (updateUser u s) = none ∧
    isSessionValid env (updateUser u s) = false := by
  have hu : getUser (updateUser u s) = none := by
    unfold getUser updateUser
    rcases h with h | h <;> simp [h]
  refine ⟨rfl, rfl, rfl, hu, ?_⟩
  unfold isSessionValid
  rw [hu]
  cases getToken (updateUser u s) <;> cases getExpiry (updateUser u s) <;> rfl

/-- Witness for C10: a concrete snapshot with empty id is written over
the valid store store90 and getUser then reports absence. -/
theorem updateUser_no_validation_witness :
    getUser (updateUser ⟨"", "x@example.com"⟩ store90) = none :=
  (updateUser_no_validation env0 store90 ⟨"", "x@example.com"⟩
    (Or.inl (by decide))).2.2.2.1

/-- C1: starting from a stored valid session, an explicit 401 from the
who-am-I endpoint clears the store and returns false (and isLoggedIn on
the cleared store is false); any other non-2xx status, and a
network-level failure with no response at all, leave the store unchanged
and return the local validity verdict, which is true here. In each case
only the who-am-I call was made. -/
theorem reconcile_failure_split (env : JSEnv) (s : Store)
    (refreshResp : FetchResult RefreshSession)
    (h : isSessionValid env s = true) :
    checkAndRefreshSession env (.httpError 401) refreshResp s =
      (false, clearSession s, [.me]) ∧
    (∀ c : Nat, c ≠ 401 →
      checkAndRefreshSession env (.httpError c) refreshResp s =
        (true, s, [.me])) ∧
    checkAndRefreshSession env .networkError refreshResp s =
      (true, s, [.me]) ∧
    isLoggedIn env (clearSession s) = false := by
  obtain ⟨h1, h2, -⟩ := isSessionValid_true_elim env s h
  obtain ⟨u, hU⟩ := Option.isSome_iff_exists.mp h2
  refine ⟨?_, ?_, ?_, ?_⟩
  · simp [checkAndRefreshSession, h1, hU, h]
  · intro c hc
    simp [checkAndRefreshSession, h1, hU, h, hc]
  · simp [checkAndRefreshSession, h1, hU, h]
  · simp [isLoggedIn, isSessionValid, getToken, getUser, getExpiry,
      clearSession]

/-- Witness for C1: a concrete 500 response leaves the valid store90
untouched and reconcile returns true. -/
theorem reconcile_failure_split_witness :
    checkAndRefreshSession env0 (.httpError 500) .networkError store90 =
      (true, store90, [.me]) :=
  (reconcile_failure_split env0 store90 .networkError (by decide)).2.1 500
    (by decide)

/-- Helper: on a stored valid session and a successful who-am-I response,
checkAndRefreshSession reduces to the two-hour refresh decision over the
still-current expiry. -/
lemma checkAndRefresh_ok_eq (env : JSEnv) (s : Store)
    (serverUser : UserData) (refreshResp : FetchResult RefreshSession)
    (h : isSessionValid env s = true) {e : String} {t : Int}
    (hE : getExpiry s = some e) (hP : env.parse e = some t) :
    checkAndRefreshSession env (.ok serverUser) refreshResp s =
      if t - env.now < 7200000 then
        match refreshResp with
        | .ok rd =>
            (true, (setSession rd.token (getUser (updateUser serverUser s))
              rd.expires_at (updateUser serverUser s)).2, [.me, .refresh])
        | _ => (true, updateUser serverUser s, [.me, .refresh])
      else (true, updateUser serverUser s, [.me]) := by
  obtain ⟨h1, h2, -⟩ := isSessionValid_true_elim env s h
  obtain ⟨u, hU⟩ := Option.isSome_iff_exists.mp h2
  have hee : e.isEmpty = false := parse_some_not_isEmpty env hP
  have hexp : getExpiry (updateUser serverUser s) = some e := by
    simpa [getExpiry, updateUser] using hE
  cases refreshResp <;>
    simp [checkAndRefreshSession, h1, hU, h, hexp, hee, hP]

/-- C2 counterexample: with a valid session whose expiry lies 90 minutes
in the future (so getTimeUntilExpiry is 90, not below 30), a successful
who-am-I response still triggers a refresh call, because the code uses a
two-hour threshold, not the 30-minute expiring-soon threshold. -/
theorem reconcile_refresh_threshold_cex :
    getTimeUntilExpiry env0 store90 = some 90 ∧ ¬((90 : Int) < 30) ∧
    ApiCall.refresh ∈
      (checkAndRefreshSession env0 (.ok u0) .networkError store90).2.2 :=
  ⟨by decide, by decide, by decide⟩

/-- C2 as amended: on a stored valid session and a successful who-am-I
response, a refresh call is attempted if and only if the stored expiry
parses to a time less than two hours (7200000 ms, that is 120 minutes)
past now; in particular both 90 and 60 minutes until expiry trigger a
refresh call. -/
theorem reconcile_refresh_two_hour_threshold (env : JSEnv) (s : Store)
    (serverUser : UserData) (refreshResp : FetchResult RefreshSession)
    (h : isSessionValid env s = true) :
    ApiCall.refresh ∈
        (checkAndRefreshSession env (.ok serverUser) refreshResp s).2.2 ↔
      ∃ e t, getExpiry s = some e ∧ env.parse e = some t ∧
        t - env.now < 7200000 := by
  obtain ⟨-, -, e, t, hE, -, hP, -⟩ := isSessionValid_true_elim env s h
  rw [checkAndRefresh_ok_eq env s serverUser refreshResp h hE hP]
  by_cases hcond : t - env.now < 7200000
  · rw [if_pos hcond]
    constructor
    · intro _
      exact ⟨e, t, hE, hP, hcond⟩
    · intro _
      cases refreshResp <;> simp
  · rw [if_neg hcond]
    constructor
    · intro hmem
      simp at hmem
    · rintro ⟨e', t', hE', hP', hcond'⟩
      rw [hE] at hE'
      injection hE' with he'
      subst he'
      rw [hP] at hP'
      injection hP' with ht'
      subst ht'
      exact absurd hcond' hcond

/-- Witness for C2 amended: at 60 minutes until expiry the refresh call
is made. -/
theorem reconcile_refresh_two_hour_threshold_witness :
    ApiCall.refresh ∈
      (checkAndRefreshSession env0 (.ok u0) .networkError store60).2.2 :=
  (reconcile_refresh_two_hour_threshold env0 store60 u0 .networkError
    (by decide)).mpr ⟨"exp60", 3600000, by decide, by decide, by decide⟩

/-- C3 counterexample: a callback run that reaches the terminal error
state (state matches but the exchange fetch returns 500) leaves the
handshake record fully in place, and a later callback run consumes the
very same record and succeeds, so the record is reused. -/
theorem handshake_not_cleared_on_error_cex :
    (handleGitHubCallback (some "code1") (some "state1") none
      (.httpError 500) (.ok ()) storageS).1 = .error ∧
    (handleGitHubCallback (some "code1") (some "state1") none
      (.httpError 500) (.ok ()) storageS).2.1 = storageS ∧
    storageS ≠ (⟨none, none⟩ : OAuthStorage) ∧
    (handleGitHubCallback (some "code1") (some "state1") none
      (.ok cbLinked) (.ok ()) storageS).1 = .success :=
  ⟨by decide, by decide, by decide, by decide⟩

/-- C3 as amended: the handshake record is destroyed exactly when the
success terminal state is reached; every run ending in the error terminal
state leaves the stored state and linking-user-id unchanged (they are
cleared only by the explicit retry action), so an error run can leave the
record available to a later callback run. -/
theorem handshake_cleared_on_success (codeParam stateParam errorParam :
    Option String) (cbResp : FetchResult CallbackData)
    (linkResp : FetchResult Unit) (storage : OAuthStorage) :
    ((handleGitHubCallback codeParam stateParam errorParam cbResp linkResp
        storage).1 = .success →
      (handleGitHubCallback codeParam stateParam errorParam cbResp linkResp
        storage).2.1 = ⟨none, none⟩) ∧
    ((handleGitHubCallback codeParam stateParam errorParam cbResp linkResp
        storage).1 = .error →
      (handleGitHubCallback codeParam stateParam errorParam cbResp linkResp
        storage).2.1 = storage) ∧
    handleRetry storage = ⟨none, none⟩ := by
  unfold handleGitHubCallback linkGitHubAccount handleRetry
  cases linkResp <;> repeat' split
  all_goals simp_all

/-- Witness for C3 amended: the concrete already-linked success run
clears both handshake slots. -/
theorem handshake_cleared_on_success_witness :
    (handleGitHubCallback (some "code1") (some "state1") none
      (.ok cbLinked) (.ok ()) storageS).2.1 = ⟨none, none⟩ :=
  (handshake_cleared_on_success (some "code1") (some "state1") none
    (.ok cbLinked) (.ok ()) storageS).1 (by decide)

/-- C4: whenever the stored handshake state is absent or differs from the
state query parameter, the callback flow ends in the error state and the
link endpoint is never called. -/
theorem state_mismatch_rejected (codeParam stateParam errorParam :
    Option String) (cbResp : FetchResult CallbackData)
    (linkResp : FetchResult Unit) (storage : OAuthStorage)
    (h : (match storage.github_oauth_state with
          | none => true
          | some st => stateParam != some st) = true) :
    (handleGitHubCallback codeParam stateParam errorParam cbResp linkResp
      storage).1 = .error ∧
    OAuthCall.link ∉ (handleGitHubCallback codeParam stateParam errorParam
      cbResp linkResp storage).2.2 := by
  unfold handleGitHubCallback
  cases hS : storage.github_oauth_state <;> rw [hS] at h <;>
    repeat' split
  all_goals simp_all

/-- Witness for C4: a concrete callback carrying a state value different
from the stored one ends in error with no link call. -/
theorem state_mismatch_rejected_witness :
    (handleGitHubCallback (some "code1") (some "evil") none (.ok cbLinked)
      (.ok ()) storageS).1 = .error ∧
    OAuthCall.link ∉ (handleGitHubCallback (some "code1") (some "evil")
      none (.ok cbLinked) (.ok ()) storageS).2.2 :=
  state_mismatch_rejected (some "code1") (some "evil") none (.ok cbLinked)
    (.ok ()) storageS (by decide)
